import Mathlib

/-!
Verification of the parallel-orchestrator worktree pool and async test
executor against their natural-language specification.

The development shallowly embeds the Python sources:
  - scripts/shared/git_utils.py            (version-control adapter)
  - scripts/parallel_test/worktree_pool.py (snapshot pool)
  - scripts/parallel_test/async_test_executor.py (execution engine)
  - scripts/parallel_test/config.py        (result data model)

External effects (git subprocesses, the filesystem, the wall clock) are
modelled by explicit environment records that fix the outcome of each
effectful call; the Lean functions then mirror the Python control flow
over those outcomes.  Machine floats of the source are modelled as exact
rationals, Python's unbounded ints as Int, Python dicts as
insertion-ordered association lists, and Python sets of strings as
duplicate-free lists (membership-guarded insertion; `set.pop`, which
returns an arbitrary element, is resolved by an environment-supplied pick
falling back to the list head).
-/

namespace ParallelOrchestrator

/-- Decidable equality on `Except`, needed to evaluate concrete pool runs. -/
instance {ε α : Type} [DecidableEq ε] [DecidableEq α] : DecidableEq (Except ε α) :=
  fun a b =>
    match a, b with
    | Except.ok x, Except.ok y =>
        if h : x = y then isTrue (by rw [h])
        else isFalse (by intro hc; cases hc; exact h rfl)
    | Except.error x, Except.error y =>
        if h : x = y then isTrue (by rw [h])
        else isFalse (by intro hc; cases hc; exact h rfl)
    | Except.ok _, Except.error _ => isFalse (by intro hc; cases hc)
    | Except.error _, Except.ok _ => isFalse (by intro hc; cases hc)

/-! ### Python dict as an insertion-ordered association list

`worktree_pool.py` uses `dict` for `_allocated` (hypothesis id → worktree
name) and `_worktree_paths` (worktree name → path).  A Python dict is an
insertion-ordered map with unique keys; we embed it as a `List (String ×
String)` whose operations mirror `d[k]`, `d[k] = v`, `d.pop(k, None)`. -/

/-- Python `d[k]` / `d.get(k)`: value of the first (unique) matching key. -/
def dictFind : List (String × String) → String → Option String
  | [], _ => none
  | (k', v) :: rest, k => if k' = k then some v else dictFind rest k

/-- Python `d[k] = v`: replace the value if the key is present, else append. -/
def dictInsert : List (String × String) → String → String → List (String × String)
  | [], k, v => [(k, v)]
  | (k', v') :: rest, k, v =>
      if k' = k then (k', v) :: rest else (k', v') :: dictInsert rest k v

/-- Python `d.pop(k, None)` (the removal part): drop the entry for `k`. -/
def dictErase : List (String × String) → String → List (String × String)
  | [], _ => []
  | (k', v') :: rest, k =>
      if k' = k then rest else (k', v') :: dictErase rest k

theorem dictFind_insert_self (d : List (String × String)) (k v : String) :
    dictFind (dictInsert d k v) k = some v := by
  induction d with
  | nil => simp [dictInsert, dictFind]
  | cons hd tl ih =>
      obtain ⟨k', v'⟩ := hd
      by_cases h : k' = k
      · simp [dictInsert, dictFind, h]
      · simp [dictInsert, dictFind, h, ih]

theorem dictFind_erase_insert_self (d : List (String × String)) (k v : String) :
    dictFind (dictInsert (dictErase d k) k v) k = some v :=
  dictFind_insert_self (dictErase d k) k v

/-- Python `s.add(x)` on a set embedded as a duplicate-free list: a no-op
when the element is present, else appended. -/
def setAdd (s : List String) (x : String) : List String :=
  if x ∈ s then s else s ++ [x]

namespace GitUtils

/-!
Model of `scripts/shared/git_utils.py`.  Each function is parameterised by
the outcomes of its underlying `git` subprocess invocations and by the
filesystem facts it inspects, and additionally reports how many times it
invoked each git command, so that retry behaviour is observable.
-/

/-- Environment of one `create_worktree(repo, path)` call (no explicit
branch, as the pool calls it): whether `worktree_path.exists()`, whether
the `git rev-parse` in `get_current_branch` succeeds, and whether the
`git worktree add` command succeeds. -/
structure CreateEnv where
  targetExists : Bool
  currentBranchOk : Bool
  addOk : Bool
deriving Repr, DecidableEq

/-- `create_worktree`: returns the worktree path or a `GitOperationError`,
together with the number of `git worktree add` invocations made.
If the path already exists it is reused without any git call; otherwise
the current branch is resolved (a failure there propagates before any
`add` attempt) and `git worktree add` is run exactly once — a failure
raises immediately. -/
def create_worktree (env : CreateEnv) (worktree_path : String) :
    Except String String × Nat :=
  if env.targetExists then (Except.ok worktree_path, 0)
  else if !env.currentBranchOk then
    (Except.error "Failed to get current branch", 0)
  else if env.addOk then (Except.ok worktree_path, 1)
  else (Except.error "Failed to create worktree", 1)

/-- Environment of one `reset_worktree(path)` call: outcomes of the
`git checkout HEAD -- .` and `git clean -fd` commands. -/
structure ResetEnv where
  checkoutOk : Bool
  cleanOk : Bool
deriving Repr, DecidableEq

/-- `reset_worktree`: runs checkout then clean, each exactly once, raising
`GitOperationError` on the first failure.  Returns the result together
with (checkout invocations, clean invocations). -/
def reset_worktree (env : ResetEnv) : Except String Unit × Nat × Nat :=
  if !env.checkoutOk then (Except.error "Failed to reset worktree", 1, 0)
  else if !env.cleanOk then (Except.error "Failed to reset worktree", 1, 1)
  else (Except.ok (), 1, 1)

/-- Environment of one `remove_worktree(repo, path, force)` call. The
`gitOk` field records whether the `git worktree remove` command succeeds;
the function's observable result does not depend on it because the
`CalledProcessError` is caught, logged and swallowed. -/
structure RemoveEnv where
  targetExists : Bool
  gitOk : Bool
deriving Repr, DecidableEq

/-- `remove_worktree`: returns normally in every case (missing path is a
no-op; a git failure is logged and swallowed).  Second component counts
`git worktree remove` invocations. -/
def remove_worktree (env : RemoveEnv) : Except String Unit × Nat :=
  (Except.ok (), if env.targetExists then 1 else 0)

end GitUtils

/-! ### The worktree pool (`scripts/parallel_test/worktree_pool.py`) -/

/-- In-memory state of a `WorktreePool` instance: the fields set in
`__init__` and mutated by the pool operations.  `available` is the Python
set `_available`, `allocated` the dict `_allocated` (hypothesis id →
worktree name), `worktreePaths` the dict `_worktree_paths` (name → path),
`totalCreated` the int `_total_created`. -/
structure WorktreePool where
  available : List String
  allocated : List (String × String)
  worktreePaths : List (String × String)
  totalCreated : Int
  maxSize : Int
  poolDir : String
  baseRepo : String
deriving DecidableEq

/-- Persisted `WorktreePoolState` dataclass (the JSON round-trips these
fields losslessly). -/
structure WorktreePoolState where
  pool_dir : String
  base_repo : String
  max_size : Int
  available_worktrees : List String
  allocated_worktrees : List (String × String)
  total_worktrees : Int
deriving Repr, DecidableEq

/-- The filesystem facts the pool inspects: the set of worktree names
under `pool_dir` whose directory exists, and the parsed content of the
`.worktree_pool.json` state file (`none` when absent or unreadable). -/
structure PoolFS where
  dirs : List String
  stateFile : Option WorktreePoolState
deriving DecidableEq

namespace WorktreePool

/-- Zero-padding of Python `f"{n:03d}"` (width 3 including the sign). -/
def fmt03d (n : Int) : String :=
  if n < 0 then
    let s := toString (-n).toNat
    if s.length < 2 then "-" ++ String.mk (List.replicate (2 - s.length) '0') ++ s
    else "-" ++ s
  else
    let s := toString n.toNat
    if s.length < 3 then String.mk (List.replicate (3 - s.length) '0') ++ s
    else s

/-- The worktree name `f"{WORKTREE_PREFIX}-{total:03d}"`. -/
def wtName (total : Int) : String := "pool-wt-" ++ fmt03d total

/-- Python `set.pop()` removes and returns an arbitrary element.  The
environment supplies the element `pick` the runtime would return; when
`pick` is not actually a member the model falls back to the list head, so
the function is total.  Returns `none` on the empty set. -/
def setPop (s : List String) (pick : String) : Option (String × List String) :=
  match s with
  | [] => none
  | x :: xs =>
      if pick ∈ x :: xs then some (pick, (x :: xs).erase pick)
      else some (x, xs)

theorem setPop_of_mem (s : List String) (pick : String) (h : pick ∈ s) :
    setPop s pick = some (pick, s.erase pick) := by
  cases s with
  | nil => cases h
  | cons x xs => simp [setPop, h]

/-- `_create_worktree(name)`: path is `pool_dir/name`.  If the directory
already exists it is registered and returned without touching git;
otherwise the adapter creates it (`createOk` folds together the branch
lookup and the `git worktree add` outcome), registering the path and
materialising the directory on success and raising on failure. -/
def create_worktree (createOk : Bool) (p : WorktreePool) (fs : PoolFS)
    (name : String) : Except Unit (String × WorktreePool × PoolFS) :=
  let path := p.poolDir ++ "/" ++ name
  if name ∈ fs.dirs then
    Except.ok (path, { p with worktreePaths := dictInsert p.worktreePaths name path }, fs)
  else if createOk then
    Except.ok (path, { p with worktreePaths := dictInsert p.worktreePaths name path },
      { fs with dirs := setAdd fs.dirs name })
  else Except.error ()

/-- `_remove_worktree(name)`: returns `false` when the name is untracked.
Otherwise `git_utils.remove_worktree` runs (swallowing any git failure:
the directory disappears only when the git command succeeds), the
tracking entry is deleted, and `true` is returned. -/
def remove_worktree (gitRemoveOk : Bool) (p : WorktreePool) (fs : PoolFS)
    (name : String) : Bool × WorktreePool × PoolFS :=
  match dictFind p.worktreePaths name with
  | none => (false, p, fs)
  | some _ =>
      let fs' := if name ∈ fs.dirs ∧ gitRemoveOk then
          { fs with dirs := fs.dirs.erase name } else fs
      (true, { p with worktreePaths := dictErase p.worktreePaths name }, fs')

/-- Errors `acquire` can raise: `exhausted` is the `RuntimeError` at
capacity, `gitError` a propagated `GitOperationError` from create,
`keyError` a Python `KeyError` on a missing `_worktree_paths` entry. -/
inductive PoolErr where
  | exhausted
  | gitError
  | keyError
deriving Repr, DecidableEq

/-- Environment of one `acquire` call: the element a `set.pop` would
return, and the outcomes of the adapter calls the branches can make
(`createOk` for the create-new branch, `resetOk` for `_reset_worktree`,
`removeGitOk` for the git removal inside the reset-failure recovery,
`recreateOk` for the recovery's `_create_worktree`). -/
structure AcquireEnv where
  pick : String
  createOk : Bool
  resetOk : Bool
  removeGitOk : Bool
  recreateOk : Bool
deriving Repr, DecidableEq

/-- Steps 5–6 of `acquire` (lines 261–273): look the chosen name up,
reset it, on reset failure remove and recreate it once, then mark it
allocated.  Shared tail of all three selection branches. -/
def acquireFinish (env : AcquireEnv) (p : WorktreePool) (fs : PoolFS)
    (hid name : String) : Except PoolErr String × WorktreePool × PoolFS :=
  match dictFind p.worktreePaths name with
  | none => (Except.error PoolErr.keyError, p, fs)
  | some path =>
      if env.resetOk then
        (Except.ok path, { p with allocated := dictInsert p.allocated hid name }, fs)
      else
        let rem := remove_worktree env.removeGitOk p fs name
        match create_worktree env.recreateOk rem.2.1 rem.2.2 name with
        | Except.error _ => (Except.error PoolErr.gitError, rem.2.1, rem.2.2)
        | Except.ok (path', p', fs') =>
            (Except.ok path', { p' with allocated := dictInsert p'.allocated hid name }, fs')

/-- `acquire(hypothesis_id)`: idempotent early return when already
allocated; else pop from `available`, or create a new worktree when under
capacity, or raise `RuntimeError` (pool exhausted); then reset / recover
and mark allocated.  The returned pool and filesystem are the state after
the call, also on the error paths (a raise leaves prior mutations in
place). -/
def acquire (env : AcquireEnv) (p : WorktreePool) (fs : PoolFS)
    (hid : String) : Except PoolErr String × WorktreePool × PoolFS :=
  match dictFind p.allocated hid with
  | some name =>
      match dictFind p.worktreePaths name with
      | some path => (Except.ok path, p, fs)
      | none => (Except.error PoolErr.keyError, p, fs)
  | none =>
      match setPop p.available env.pick with
      | some (name, rest) =>
          acquireFinish env { p with available := rest } fs hid name
      | none =>
          if p.totalCreated < p.maxSize then
            let name := wtName p.totalCreated
            match create_worktree env.createOk p fs name with
            | Except.error _ => (Except.error PoolErr.gitError, p, fs)
            | Except.ok (_, p', fs') =>
                acquireFinish env { p' with totalCreated := p'.totalCreated + 1 } fs' hid name
          else (Except.error PoolErr.exhausted, p, fs)

/-- `release(hypothesis_id)`: pop the lease; `if not worktree_name` is
Python falsiness, so an empty-string name is treated as no lease (the
entry is nonetheless already popped); otherwise the name returns to
`available`. -/
def release (p : WorktreePool) (hid : String) : Bool × WorktreePool :=
  match dictFind p.allocated hid with
  | none => (false, p)
  | some name =>
      let p' := { p with allocated := dictErase p.allocated hid }
      if name = "" then (false, p')
      else (true, { p' with available := setAdd p'.available name })

/-- Loop body of `expand_pool(count)`: one list entry per requested
iteration carrying that iteration's create outcome.  Stops at capacity or
on a create failure; on success the new name is added to `available` and
the total incremented. -/
def expandGo : List Bool → WorktreePool → PoolFS → Nat × WorktreePool × PoolFS
  | [], p, fs => (0, p, fs)
  | ok :: rest, p, fs =>
      if p.totalCreated ≥ p.maxSize then (0, p, fs)
      else
        let name := wtName p.totalCreated
        match create_worktree ok p fs name with
        | Except.error _ => (0, p, fs)
        | Except.ok (_, p', fs') =>
            let p'' := { p' with available := setAdd p'.available name,
                                 totalCreated := p'.totalCreated + 1 }
            let r := expandGo rest p'' fs'
            (r.1 + 1, r.2)

/-- `expand_pool(count)` with `count = envs.length`. -/
def expand_pool (envs : List Bool) (p : WorktreePool) (fs : PoolFS) :
    Nat × WorktreePool × PoolFS :=
  expandGo envs p fs

/-- Loop body of `shrink_pool(count)`: one entry per iteration carrying
the `set.pop` pick and the git-remove outcome.  Stops when `available` is
empty; a failed removal puts the name back and stops. -/
def shrinkGo : List (String × Bool) → WorktreePool → PoolFS → Nat × WorktreePool × PoolFS
  | [], p, fs => (0, p, fs)
  | (pick, gOk) :: rest, p, fs =>
      match setPop p.available pick with
      | none => (0, p, fs)
      | some (name, avail') =>
          let p₁ := { p with available := avail' }
          let rem := remove_worktree gOk p₁ fs name
          if rem.1 then
            let p₂ := { rem.2.1 with totalCreated := rem.2.1.totalCreated - 1 }
            let r := shrinkGo rest p₂ rem.2.2
            (r.1 + 1, r.2)
          else (0, { rem.2.1 with available := setAdd rem.2.1.available name }, rem.2.2)

/-- `shrink_pool(count)` with `count = envs.length`. -/
def shrink_pool (envs : List (String × Bool)) (p : WorktreePool) (fs : PoolFS) :
    Nat × WorktreePool × PoolFS :=
  shrinkGo envs p fs

/-- `persist_state()`: snapshot the state into the dataclass and write it
to the state file; `writeOk` is the outcome of the file write (a failure
is logged, leaving the previous file). -/
def persist_state (writeOk : Bool) (p : WorktreePool) (fs : PoolFS) : Bool × PoolFS :=
  let st : WorktreePoolState :=
    { pool_dir := p.poolDir
      base_repo := p.baseRepo
      max_size := p.maxSize
      available_worktrees := p.available
      allocated_worktrees := p.allocated
      total_worktrees := p.totalCreated }
  if writeOk then (true, { fs with stateFile := some st })
  else (false, fs)

/-- `load_state()`: no-op without a state file; a `base_repo` mismatch
discards the whole file; otherwise restore available/allocated/total,
take the larger `max_size`, and rebuild `_worktree_paths` from the
filesystem, discarding from `available` every name whose directory is
missing.  (The Python iteration order over the set union is immaterial:
the rebuilt dict maps each surviving name to `pool_dir/name`.) -/
def load_state (p : WorktreePool) (fs : PoolFS) : Bool × WorktreePool :=
  match fs.stateFile with
  | none => (false, p)
  | some st =>
      if st.base_repo ≠ p.baseRepo then (false, p)
      else
        let avail := st.available_worktrees.dedup
        let names := st.available_worktrees ++ st.allocated_worktrees.map Prod.snd
        (true,
          { p with
            available := avail.filter (fun n => n ∈ fs.dirs)
            allocated := st.allocated_worktrees
            totalCreated := st.total_worktrees
            maxSize := max p.maxSize st.max_size
            worktreePaths :=
              (names.filter (fun n => n ∈ fs.dirs)).map
                (fun n => (n, p.poolDir ++ "/" ++ n)) })

/-- `WorktreePool(base_repo, pool_dir, max_size, auto_load)`: empty state,
then `load_state` when `auto_load`. -/
def init (baseRepo poolDir : String) (maxSize : Int) (autoLoad : Bool)
    (fs : PoolFS) : WorktreePool :=
  let p0 : WorktreePool :=
    { available := []
      allocated := []
      worktreePaths := []
      totalCreated := 0
      maxSize := maxSize
      poolDir := poolDir
      baseRepo := baseRepo }
  if autoLoad then (load_state p0 fs).2 else p0

/-- The `get_stats()` dictionary.  `capacity_used` is the percentage
rendered into the source's string (`total / max_size * 100`); rational
division is total with `x / 0 = 0`, standing in for the Python
`ZeroDivisionError` corner that both sides of any comparison share. -/
structure Stats where
  total_worktrees : Int
  available : Nat
  allocated : Nat
  max_size : Int
  capacity_used : ℚ
  pool_dir : String
  base_repo : String
deriving Repr, DecidableEq

/-- `get_stats()`. -/
def get_stats (p : WorktreePool) : Stats :=
  { total_worktrees := p.totalCreated
    available := p.available.length
    allocated := p.allocated.length
    max_size := p.maxSize
    capacity_used := (p.totalCreated : ℚ) / (p.maxSize : ℚ) * 100
    pool_dir := p.poolDir
    base_repo := p.baseRepo }

/-- One pool operation of the sequences claim C1 quantifies over. -/
inductive Op where
  | opAcquire (hid : String) (env : AcquireEnv)
  | opRelease (hid : String)
  | opExpand (envs : List Bool)
  | opShrink (envs : List (String × Bool))
deriving Repr

/-- Apply one operation (results are discarded; an exception from
`acquire` leaves its partial mutations in place, as in the source). -/
def runOp (s : WorktreePool × PoolFS) : Op → WorktreePool × PoolFS
  | Op.opAcquire hid env => (acquire env s.1 s.2 hid).2
  | Op.opRelease hid => ((release s.1 hid).2, s.2)
  | Op.opExpand envs => (expand_pool envs s.1 s.2).2
  | Op.opShrink envs => (shrink_pool envs s.1 s.2).2

/-- Run a sequence of pool operations. -/
def runOps (ops : List Op) (s : WorktreePool × PoolFS) : WorktreePool × PoolFS :=
  ops.foldl runOp s

/-- The set of leased worktree names (the values of `_allocated`). -/
def leasedNames (p : WorktreePool) : List String := p.allocated.map Prod.snd

end WorktreePool

/-! ### The async execution engine
(`scripts/parallel_test/async_test_executor.py` over the result model of
`scripts/parallel_test/config.py`) -/

/-- `config.TestResult`. -/
inductive TestResult where
  | pass
  | fail
  | timeout
  | error
deriving Repr, DecidableEq

/-- `config.TestExecutionResult` (the fields the executor sets).  The
`metrics` dict is used only for its `"confidence"` entry, embedded as an
`Option ℚ` (`none` = the default empty dict).  Decoded stdout/stderr text
is a `List Char`. -/
structure TestExecutionResult where
  hypothesis_id : String
  result : TestResult
  duration : ℚ
  stdout : List Char := []
  stderr : List Char := []
  exit_code : Int := 0
  worktree_path : String := ""
  error_message : String := ""
  metricsConfidence : Option ℚ := none
deriving Repr, DecidableEq

namespace AsyncTestExecutor

/-- Environment of one test run: whether the test script file exists,
whether `create_subprocess_exec` succeeds, whether the wall-clock timeout
of `asyncio.wait_for` fires before the child completes, and — when the
child does complete — its exit code, the measured elapsed time and its
decoded stdout/stderr. -/
structure RunEnv where
  scriptExists : Bool
  spawnOk : Bool
  timesOut : Bool
  exitCode : Int
  elapsed : ℚ
  out : List Char
  err : List Char
deriving Repr, DecidableEq

/-- `_classify_test_result(exit_code)`: 0 → PASS, anything else → FAIL
(TIMEOUT is produced separately by the timeout handler). -/
def classify_test_result (exit_code : Int) : TestResult :=
  if exit_code = 0 then TestResult.pass else TestResult.fail

/-- `_calculate_confidence(result, duration)`. -/
def calculate_confidence (result : TestResult) (duration : ℚ) : ℚ :=
  if result = TestResult.timeout then 0.3
  else if result = TestResult.error then 0.2
  else if duration < 5 then 0.6
  else 0.85

/-- `execute_single_async(hypothesis, worktree)`: missing script → ERROR
(exit 1, no confidence); spawn failure → ERROR (exit 1, no confidence);
otherwise classify the exit code, attach the measured duration, the full
decoded output and the derived confidence. -/
def execute_single_async (env : RunEnv) (hid worktree : String) :
    TestExecutionResult :=
  if !env.scriptExists then
    { hypothesis_id := hid
      result := TestResult.error
      duration := env.elapsed
      error_message := "Test script not found"
      exit_code := 1 }
  else if !env.spawnOk then
    { hypothesis_id := hid
      result := TestResult.error
      duration := env.elapsed
      error_message := "Async test execution error"
      exit_code := 1
      worktree_path := worktree }
  else
    let result := classify_test_result env.exitCode
    { hypothesis_id := hid
      result := result
      duration := env.elapsed
      stdout := env.out
      stderr := env.err
      exit_code := env.exitCode
      worktree_path := worktree
      metricsConfidence := some (calculate_confidence result env.elapsed) }

/-- `_execute_with_timeout(hypothesis, worktree)`: wrap the single run in
`asyncio.wait_for(…, timeout_seconds)`; on expiry return TIMEOUT with the
synthetic exit code 124 and `duration = timeout_seconds` (not the
measured elapsed time, and with the default empty metrics). -/
def execute_with_timeout (timeout_seconds : ℚ) (env : RunEnv)
    (hid worktree : String) : TestExecutionResult :=
  if env.timesOut then
    { hypothesis_id := hid
      result := TestResult.timeout
      duration := timeout_seconds
      error_message := "Test exceeded timeout"
      exit_code := 124 }
  else execute_single_async env hid worktree

/-- `should_parallelize(hypotheses)` consumes only each hypothesis's
`estimated_test_time`; the batch is embedded as that list of times.
Python `max(test_times)` on the (nonempty) list. -/
def listMax : List ℚ → ℚ
  | [] => 0
  | t :: ts => ts.foldl max t

/-- `should_parallelize`: false for batches of size ≤ 1; else compare
`sequential = sum` against `parallel = max + overhead` with
`overhead = 7 + 16 * n`, parallelizing exactly when time is saved. -/
def should_parallelize (test_times : List ℚ) : Bool :=
  if test_times.length ≤ 1 then false
  else
    let sequential := test_times.sum
    let overhead : ℚ := 7 + 16 * test_times.length
    let parallel := listMax test_times + overhead
    if sequential - parallel ≤ 0 then false
    else true

end AsyncTestExecutor

/-! ## Theorems about the execution engine -/

open AsyncTestExecutor

/-- Claim C5: classification is deterministic — a command completing with
exit code 0 is classified PASS, any nonzero completion is classified
FAIL, an execution exceeding the configured timeout is classified TIMEOUT
with synthetic exit code 124, and a missing test script is classified
ERROR. -/
theorem classification_determinism (t : ℚ) (env : RunEnv) (hid wt : String) :
    (env.timesOut = false → env.scriptExists = true → env.spawnOk = true →
      env.exitCode = 0 →
      (execute_with_timeout t env hid wt).result = TestResult.pass) ∧
    (env.timesOut = false → env.scriptExists = true → env.spawnOk = true →
      env.exitCode ≠ 0 →
      (execute_with_timeout t env hid wt).result = TestResult.fail) ∧
    (env.timesOut = true →
      (execute_with_timeout t env hid wt).result = TestResult.timeout ∧
      (execute_with_timeout t env hid wt).exit_code = 124) ∧
    (env.timesOut = false → env.scriptExists = false →
      (execute_with_timeout t env hid wt).result = TestResult.error) := by
  refine ⟨?_, ?_, ?_, ?_⟩
  · intro h1 h2 h3 h4
    simp [execute_with_timeout, execute_single_async, classify_test_result, h1, h2, h3, h4]
  · intro h1 h2 h3 h4
    simp [execute_with_timeout, execute_single_async, classify_test_result, h1, h2, h3, h4]
  · intro h1
    simp [execute_with_timeout, h1]
  · intro h1 h2
    simp [execute_with_timeout, execute_single_async, h1, h2]

/-- Witness for C5 at concrete inputs: exit 0 → PASS, exit 2 → FAIL,
timeout → TIMEOUT, missing script → ERROR. -/
theorem classification_determinism_witness :
    (execute_with_timeout 300 ⟨true, true, false, 0, 10, [], []⟩ "h" "w").result
        = TestResult.pass ∧
    (execute_with_timeout 300 ⟨true, true, false, 2, 10, [], []⟩ "h" "w").result
        = TestResult.fail ∧
    (execute_with_timeout 300 ⟨true, true, true, 0, 10, [], []⟩ "h" "w").result
        = TestResult.timeout ∧
    (execute_with_timeout 300 ⟨false, true, false, 0, 10, [], []⟩ "h" "w").result
        = TestResult.error :=
  ⟨(classification_determinism 300 ⟨true, true, false, 0, 10, [], []⟩ "h" "w").1
      rfl rfl rfl rfl,
   (classification_determinism 300 ⟨true, true, false, 2, 10, [], []⟩ "h" "w").2.1
      rfl rfl rfl (by decide),
   ((classification_determinism 300 ⟨true, true, true, 0, 10, [], []⟩ "h" "w").2.2.1
      rfl).1,
   (classification_determinism 300 ⟨false, true, false, 0, 10, [], []⟩ "h" "w").2.2.2
      rfl rfl⟩

/-- Claim C10: a command that itself exits with code 124 before the
timeout is classified FAIL, not TIMEOUT; the TIMEOUT classification
arises only via the expired wall-clock timeout, and then the reported
duration is exactly the configured timeout value, whatever the measured
elapsed time was. -/
theorem timeout_edge_semantics (t : ℚ) (env : RunEnv) (hid wt : String) :
    (env.timesOut = false → env.scriptExists = true → env.spawnOk = true →
      env.exitCode = 124 →
      (execute_with_timeout t env hid wt).result = TestResult.fail ∧
      (execute_with_timeout t env hid wt).exit_code = 124) ∧
    (env.timesOut = false →
      (execute_with_timeout t env hid wt).result ≠ TestResult.timeout) ∧
    (env.timesOut = true →
      (execute_with_timeout t env hid wt).result = TestResult.timeout ∧
      (execute_with_timeout t env hid wt).duration = t) := by
  refine ⟨?_, ?_, ?_⟩
  · intro h1 h2 h3 h4
    simp [execute_with_timeout, execute_single_async, classify_test_result, h1, h2, h3, h4]
  · intro h1
    simp only [execute_with_timeout, execute_single_async, h1, Bool.false_eq_true, if_false]
    rcases hse : env.scriptExists with _ | _ <;>
      rcases hsp : env.spawnOk with _ | _ <;>
        (simp [classify_test_result, hse, hsp]; try (split <;> simp))
  · intro h1
    simp [execute_with_timeout, h1]

/-- Witness for C10: a run finishing with exit code 124 within the
timeout is FAIL; an expired timeout of 7 seconds reports duration 7
although the measured elapsed time in the environment is 42. -/
theorem timeout_edge_semantics_witness :
    (execute_with_timeout 300 ⟨true, true, false, 124, 10, [], []⟩ "h" "w").result
        = TestResult.fail ∧
    (execute_with_timeout 7 ⟨true, true, true, 0, 42, [], []⟩ "h" "w").duration = 7 :=
  ⟨((timeout_edge_semantics 300 ⟨true, true, false, 124, 10, [], []⟩ "h" "w").1
      rfl rfl rfl rfl).1,
   ((timeout_edge_semantics 7 ⟨true, true, true, 0, 42, [], []⟩ "h" "w").2.2
      rfl).2⟩

/-- Counterexample to claim C7: the ExecutionResult returned for an
expired timeout is classified TIMEOUT but carries no confidence value at
all (`metrics` stays the default empty dict), contradicting "every
returned ExecutionResult carries a derived confidence value … a low fixed
value for TIMEOUT results". -/
theorem confidence_missing_on_timeout_cex :
    (execute_with_timeout 300 ⟨true, true, true, 0, 42, [], []⟩ "h1" "wt1").result
        = TestResult.timeout ∧
    (execute_with_timeout 300 ⟨true, true, true, 0, 42, [], []⟩ "h1" "wt1").metricsConfidence
        = none := by
  constructor <;> rfl

/-- Claim C7 as amended: the confidence heuristic itself maps TIMEOUT to
the low fixed value 0.3, ERROR to the lowest fixed value 0.2, completed
runs under the 5-second threshold to the medium value 0.6 and other
completed runs to the high value 0.85; however only results of completed
runs carry that value in their metrics — the TIMEOUT and ERROR results
the executor returns carry no confidence. -/
theorem confidence_assignment_amended :
    (∀ d : ℚ, calculate_confidence TestResult.timeout d = 0.3) ∧
    (∀ d : ℚ, calculate_confidence TestResult.error d = 0.2) ∧
    (∀ (r : TestResult) (d : ℚ), r = TestResult.pass ∨ r = TestResult.fail →
      calculate_confidence r d = if d < 5 then 0.6 else 0.85) ∧
    (∀ (env : RunEnv) (hid wt : String),
      env.scriptExists = true → env.spawnOk = true →
      (execute_single_async env hid wt).metricsConfidence
        = some (calculate_confidence (classify_test_result env.exitCode) env.elapsed)) ∧
    (∀ (t : ℚ) (env : RunEnv) (hid wt : String), env.timesOut = true →
      (execute_with_timeout t env hid wt).metricsConfidence = none) ∧
    (∀ (env : RunEnv) (hid wt : String),
      env.scriptExists = false ∨ env.spawnOk = false →
      (execute_single_async env hid wt).metricsConfidence = none) := by
  refine ⟨fun d => rfl, fun d => rfl, ?_, ?_, ?_, ?_⟩
  · rintro r d (rfl | rfl) <;> rfl
  · intro env hid wt h1 h2
    simp [execute_single_async, h1, h2]
  · intro t env hid wt h1
    simp [execute_with_timeout, h1]
  · rintro env hid wt (h | h)
    · simp [execute_single_async, h]
    · simp [execute_single_async, h]
      split <;> rfl

/-- Witness for C7 (amended) at concrete inputs: the four fixed
confidence values, a completed run carrying its derived confidence, and a
timed-out run carrying none. -/
theorem confidence_assignment_amended_witness :
    calculate_confidence TestResult.timeout 1 = 0.3 ∧
    calculate_confidence TestResult.error 1 = 0.2 ∧
    calculate_confidence TestResult.pass 2 = 0.6 ∧
    calculate_confidence TestResult.fail 9 = 0.85 ∧
    (execute_single_async ⟨true, true, false, 0, 9, [], []⟩ "h" "w").metricsConfidence
        = some 0.85 ∧
    (execute_with_timeout 300 ⟨true, true, true, 0, 9, [], []⟩ "h" "w").metricsConfidence
        = none := by
  refine ⟨confidence_assignment_amended.1 1, confidence_assignment_amended.2.1 1, ?_, ?_, ?_,
    confidence_assignment_amended.2.2.2.2.1 300 ⟨true, true, true, 0, 9, [], []⟩ "h" "w" rfl⟩
  · rw [confidence_assignment_amended.2.2.1 TestResult.pass 2 (Or.inl rfl)]
    norm_num
  · rw [confidence_assignment_amended.2.2.1 TestResult.fail 9 (Or.inr rfl)]
    norm_num
  · rw [confidence_assignment_amended.2.2.2.1 ⟨true, true, false, 0, 9, [], []⟩ "h" "w" rfl rfl]
    norm_num [calculate_confidence, classify_test_result]
    simp

/-- Counterexample to claim C9: there is no constant bound on the stored
stdout — for every candidate bound an execution environment exists whose
stored stdout is longer, because `execute_single_async` stores the
child's decoded output in full. -/
theorem bounded_output_cex :
    ¬ ∃ B : Nat, ∀ env : RunEnv,
      (execute_single_async env "h1" "wt1").stdout.length ≤ B := by
  rintro ⟨B, hB⟩
  have h := hB ⟨true, true, false, 0, 10, List.replicate (B + 1) 'a', []⟩
  simp [execute_single_async, classify_test_result] at h

/-- Claim C9 as amended: for every completed execution the stored stdout
and stderr are exactly the full decoded output of the child process — no
truncation is applied in this executor (the last-2000-characters
truncation exists only in the separate falsification TestExecutor
module). -/
theorem output_stored_in_full (env : RunEnv) (hid wt : String)
    (h1 : env.scriptExists = true) (h2 : env.spawnOk = true) :
    (execute_single_async env hid wt).stdout = env.out ∧
    (execute_single_async env hid wt).stderr = env.err := by
  simp [execute_single_async, h1, h2]

/-- Witness for C9 (amended): a concrete completed run whose stored
stdout is its full 3-character output. -/
theorem output_stored_in_full_witness :
    (execute_single_async ⟨true, true, false, 0, 10, ['a', 'b', 'c'], ['x']⟩ "h" "w").stdout
        = ['a', 'b', 'c'] :=
  (output_stored_in_full ⟨true, true, false, 0, 10, ['a', 'b', 'c'], ['x']⟩ "h" "w"
    rfl rfl).1

/-! ### Break-even helper lemmas -/

theorem sum_map_add (ts : List ℚ) (δ : ℚ) :
    (ts.map (fun x => x + δ)).sum = ts.sum + ts.length * δ := by
  induction ts with
  | nil => simp
  | cons t ts ih =>
      simp only [List.map_cons, List.sum_cons, ih, List.length_cons]
      push_cast
      ring

theorem foldl_max_add (ts : List ℚ) (a δ : ℚ) :
    (ts.map (fun x => x + δ)).foldl max (a + δ) = ts.foldl max a + δ := by
  induction ts generalizing a with
  | nil => simp
  | cons t ts ih =>
      rw [List.map_cons, List.foldl_cons, List.foldl_cons, max_add_add_right, ih]

theorem listMax_map_add (ts : List ℚ) (δ : ℚ) (h : ts ≠ []) :
    listMax (ts.map (fun x => x + δ)) = listMax ts + δ := by
  cases ts with
  | nil => exact absurd rfl h
  | cons t ts =>
      rw [List.map_cons, listMax, listMax]
      exact foldl_max_add ts t δ

/-- Claim C6: `should_parallelize` is false for every batch of size at
most one; for size n > 1 it is true exactly when the duration sum exceeds
the duration maximum plus the overhead `7 + 16 * n`; uniformly increasing
the durations never flips the decision from true back to false, and for
any fixed batch of size n > 1 a large enough uniform increase makes the
decision true. -/
theorem break_even_decision :
    (∀ ts : List ℚ, ts.length ≤ 1 → should_parallelize ts = false) ∧
    (∀ ts : List ℚ, 1 < ts.length →
      (should_parallelize ts = true ↔
        listMax ts + (7 + 16 * (ts.length : ℚ)) < ts.sum)) ∧
    (∀ (ts : List ℚ) (δ δ' : ℚ), δ ≤ δ' →
      should_parallelize (ts.map (fun x => x + δ)) = true →
      should_parallelize (ts.map (fun x => x + δ')) = true) ∧
    (∀ ts : List ℚ, 1 < ts.length →
      ∃ δ₀ : ℚ, ∀ δ : ℚ, δ₀ ≤ δ →
        should_parallelize (ts.map (fun x => x + δ)) = true) := by
  have hshort : ∀ ts : List ℚ, ts.length ≤ 1 → should_parallelize ts = false := by
    intro ts h
    simp [should_parallelize, h]
  have hchar : ∀ ts : List ℚ, 1 < ts.length →
      (should_parallelize ts = true ↔
        listMax ts + (7 + 16 * (ts.length : ℚ)) < ts.sum) := by
    intro ts h
    have h' : ¬ ts.length ≤ 1 := by omega
    simp only [should_parallelize, h', if_false]
    by_cases hc : ts.sum - (listMax ts + (7 + 16 * (ts.length : ℚ))) ≤ 0
    · simp only [hc, if_true]
      constructor
      · intro hff
        exact absurd hff (by simp)
      · intro hlt
        linarith
    · simp only [hc, if_false, true_iff]
      push_neg at hc
      linarith
  refine ⟨hshort, hchar, ?_, ?_⟩
  · intro ts δ δ' hδ hsp
    by_cases hlen : ts.length ≤ 1
    · have hm : (ts.map (fun x => x + δ)).length ≤ 1 := by simpa using hlen
      rw [hshort _ hm] at hsp
      exact absurd hsp (by simp)
    · push_neg at hlen
      have hne : ts ≠ [] := by
        intro hnil
        rw [hnil] at hlen
        simp at hlen
      have hmlen : ∀ c : ℚ, 1 < (ts.map (fun x => x + c)).length := by
        intro c
        simpa using hlen
      have h1 := (hchar _ (hmlen δ)).mp hsp
      rw [listMax_map_add _ _ hne, sum_map_add, List.length_map] at h1
      rw [hchar _ (hmlen δ')]
      rw [listMax_map_add _ _ hne, sum_map_add, List.length_map]
      have hn2 : (2 : ℚ) ≤ (ts.length : ℚ) := by
        exact_mod_cast hlen
      have hnn : (0 : ℚ) ≤ ((ts.length : ℚ) - 1) * (δ' - δ) :=
        mul_nonneg (by linarith) (by linarith)
      have hexp : ((ts.length : ℚ) - 1) * (δ' - δ)
          = (ts.length : ℚ) * δ' - (ts.length : ℚ) * δ - δ' + δ := by ring
      linarith
  · intro ts hlen
    have hne : ts ≠ [] := by
      intro hnil
      rw [hnil] at hlen
      simp at hlen
    have hn2 : (2 : ℚ) ≤ (ts.length : ℚ) := by
      exact_mod_cast hlen
    have hpos : (0 : ℚ) < (ts.length : ℚ) - 1 := by linarith
    refine ⟨(listMax ts + 7 + 16 * (ts.length : ℚ) - ts.sum) / ((ts.length : ℚ) - 1) + 1,
      fun δ hδ => ?_⟩
    have hmlen : 1 < (ts.map (fun x => x + δ)).length := by simpa using hlen
    rw [hchar _ hmlen, listMax_map_add _ _ hne, sum_map_add, List.length_map]
    have h1 : (listMax ts + 7 + 16 * (ts.length : ℚ) - ts.sum) / ((ts.length : ℚ) - 1)
        ≤ δ - 1 := by linarith
    have h2 : listMax ts + 7 + 16 * (ts.length : ℚ) - ts.sum
        ≤ (δ - 1) * ((ts.length : ℚ) - 1) := (div_le_iff₀ hpos).mp h1
    have hexp : (δ - 1) * ((ts.length : ℚ) - 1)
        = (ts.length : ℚ) * δ - δ - (ts.length : ℚ) + 1 := by ring
    linarith

/-- Witness for C6: a singleton batch is never parallelized; a
two-element batch of long tests is. -/
theorem break_even_decision_witness :
    should_parallelize [(5 : ℚ)] = false ∧
    should_parallelize [(100 : ℚ), 100] = true :=
  ⟨break_even_decision.1 [5] (by simp),
   (break_even_decision.2.1 [(100 : ℚ), 100] (by simp)).mpr
     (by norm_num [listMax])⟩

/-! ## Theorems about the version-control adapter -/

/-- Counterexample to claim C8: a create whose underlying
`git worktree add` fails surfaces the `GitOperationError` after exactly
one invocation of the git command — not two as "retried once before the
failure surfaces" requires — and likewise the first failing command of a
reset surfaces after a single attempt. -/
theorem adapter_no_retry_cex :
    GitUtils.create_worktree ⟨false, true, false⟩ "wt" =
      (Except.error "Failed to create worktree", 1) ∧
    GitUtils.reset_worktree ⟨false, true⟩ =
      (Except.error "Failed to reset worktree", 1, 0) := by
  constructor <;> rfl

/-- Claim C8 as amended: create and reset failures are not retried by the
adapter — the first underlying git failure surfaces immediately as a
GitOperationError after a single invocation of the failing command (the
only retry-like recovery is the pool's tear-down-and-recreate inside
`acquire`) — while remove never raises: a git failure there is logged and
swallowed. -/
theorem adapter_error_policy :
    (∀ (env : GitUtils.CreateEnv) (wt : String), env.targetExists = false →
      env.currentBranchOk = true → env.addOk = false →
      GitUtils.create_worktree env wt = (Except.error "Failed to create worktree", 1)) ∧
    (∀ env : GitUtils.ResetEnv, env.checkoutOk = false →
      GitUtils.reset_worktree env = (Except.error "Failed to reset worktree", 1, 0)) ∧
    (∀ env : GitUtils.ResetEnv, env.checkoutOk = true → env.cleanOk = false →
      GitUtils.reset_worktree env = (Except.error "Failed to reset worktree", 1, 1)) ∧
    (∀ env : GitUtils.RemoveEnv, (GitUtils.remove_worktree env).1 = Except.ok ()) := by
  refine ⟨?_, ?_, ?_, fun env => rfl⟩
  · intro env wt h1 h2 h3
    simp [GitUtils.create_worktree, h1, h2, h3]
  · intro env h1
    simp [GitUtils.reset_worktree, h1]
  · intro env h1 h2
    simp [GitUtils.reset_worktree, h1, h2]

/-- Witness for C8 (amended) at concrete environments: a failing create
and both failing reset shapes surface after one attempt of the failing
command; a remove whose git command fails still returns normally. -/
theorem adapter_error_policy_witness :
    GitUtils.create_worktree ⟨false, true, false⟩ "w2" =
      (Except.error "Failed to create worktree", 1) ∧
    GitUtils.reset_worktree ⟨false, false⟩ =
      (Except.error "Failed to reset worktree", 1, 0) ∧
    GitUtils.reset_worktree ⟨true, false⟩ =
      (Except.error "Failed to reset worktree", 1, 1) ∧
    (GitUtils.remove_worktree ⟨true, false⟩).1 = Except.ok () :=
  ⟨adapter_error_policy.1 ⟨false, true, false⟩ "w2" rfl rfl rfl,
   adapter_error_policy.2.1 ⟨false, false⟩ rfl,
   adapter_error_policy.2.2.1 ⟨true, false⟩ rfl rfl,
   adapter_error_policy.2.2.2 ⟨true, false⟩⟩

/-! ## Theorems about the worktree pool -/

open WorktreePool

/-- Claim C1 is violated by the code: starting from an empty pool of
capacity 3 and running only ordinary operations — acquire h1, acquire h2,
release h1, shrink_pool(1), acquire h3, release h2, all adapter calls
succeeding — the final state has the worktree name "pool-wt-001" both in
`available` and leased (to h3), so available and leased are not disjoint.
The cause: after `shrink_pool` removed "pool-wt-000" and decremented
`_total_created` to 1, the next acquire names its "new" worktree
`f"pool-wt-{1:03d}" = "pool-wt-001"` — the name of the worktree still
leased to h2 — and `_create_worktree` silently reuses the existing
directory, double-leasing it. -/
theorem pool_double_lease_bug :
    ("pool-wt-001" ∈
        (runOps
          [Op.opAcquire "h1" ⟨"", true, true, true, true⟩,
           Op.opAcquire "h2" ⟨"", true, true, true, true⟩,
           Op.opRelease "h1",
           Op.opShrink [("pool-wt-000", true)],
           Op.opAcquire "h3" ⟨"", true, true, true, true⟩,
           Op.opRelease "h2"]
          (init "repo" "pool" 3 false ⟨[], none⟩, ⟨[], none⟩)).1.available) ∧
    ("pool-wt-001" ∈ leasedNames
        (runOps
          [Op.opAcquire "h1" ⟨"", true, true, true, true⟩,
           Op.opAcquire "h2" ⟨"", true, true, true, true⟩,
           Op.opRelease "h1",
           Op.opShrink [("pool-wt-000", true)],
           Op.opAcquire "h3" ⟨"", true, true, true, true⟩,
           Op.opRelease "h2"]
          (init "repo" "pool" 3 false ⟨[], none⟩, ⟨[], none⟩)).1) := by
  decide

theorem create_worktree_find (ok : Bool) (p : WorktreePool) (fs : PoolFS)
    (name path : String) (p' : WorktreePool) (fs' : PoolFS)
    (h : WorktreePool.create_worktree ok p fs name = Except.ok (path, p', fs')) :
    dictFind p'.worktreePaths name = some path := by
  unfold WorktreePool.create_worktree at h
  split at h
  · simp only [Except.ok.injEq, Prod.mk.injEq] at h
    obtain ⟨h1, h2, h3⟩ := h
    rw [← h2, ← h1]
    exact dictFind_insert_self _ _ _
  · split at h
    · simp only [Except.ok.injEq, Prod.mk.injEq] at h
      obtain ⟨h1, h2, h3⟩ := h
      rw [← h2, ← h1]
      exact dictFind_insert_self _ _ _
    · exact absurd h (by simp)

theorem acquireFinish_ok (env : AcquireEnv) (p : WorktreePool) (fs : PoolFS)
    (hid name path : String) (p' : WorktreePool) (fs' : PoolFS)
    (h : WorktreePool.acquireFinish env p fs hid name = (Except.ok path, p', fs')) :
    dictFind p'.allocated hid = some name ∧
    dictFind p'.worktreePaths name = some path := by
  simp only [WorktreePool.acquireFinish] at h
  split at h
  · exact absurd h (by simp)
  · rename_i path₀ hfp
    split at h
    · simp only [Prod.mk.injEq, Except.ok.injEq] at h
      obtain ⟨h1, h2, h3⟩ := h
      rw [← h2]
      exact ⟨dictFind_insert_self _ _ _, by rw [← h1]; exact hfp⟩
    · split at h
      · exact absurd h (by simp)
      · rename_i res path₁ p₁ fs₁ hcr
        simp only [Prod.mk.injEq, Except.ok.injEq] at h
        obtain ⟨h1, h2, h3⟩ := h
        rw [← h2]
        refine ⟨dictFind_insert_self _ _ _, ?_⟩
        rw [← h1]
        show dictFind p₁.worktreePaths name = some path₁
        exact create_worktree_find _ _ _ _ _ _ _ hcr

theorem acquire_ok_state (env : AcquireEnv) (p : WorktreePool) (fs : PoolFS)
    (hid path : String) (p' : WorktreePool) (fs' : PoolFS)
    (h : WorktreePool.acquire env p fs hid = (Except.ok path, p', fs')) :
    ∃ name, dictFind p'.allocated hid = some name ∧
      dictFind p'.worktreePaths name = some path := by
  simp only [WorktreePool.acquire] at h
  split at h
  · rename_i name hfind
    split at h
    · rename_i path₀ hpath
      simp only [Prod.mk.injEq, Except.ok.injEq] at h
      obtain ⟨h1, h2, h3⟩ := h
      exact ⟨name, by rw [← h2, ← h1]; exact ⟨hfind, hpath⟩⟩
    · exact absurd h (by simp)
  · split at h
    · rename_i popRes name rest hpop
      exact ⟨name, acquireFinish_ok _ _ _ _ _ _ _ _ h⟩
    · split at h
      · split at h
        · exact absurd h (by simp)
        · exact ⟨wtName p.totalCreated, acquireFinish_ok _ _ _ _ _ _ _ _ h⟩
      · exact absurd h (by simp)

theorem acquire_already_allocated (env : AcquireEnv) (p : WorktreePool) (fs : PoolFS)
    (hid name path : String)
    (h1 : dictFind p.allocated hid = some name)
    (h2 : dictFind p.worktreePaths name = some path) :
    WorktreePool.acquire env p fs hid = (Except.ok path, p, fs) := by
  simp [WorktreePool.acquire, h1, h2]

/-- Claim C2: acquire is idempotent — after a successful
`acquire(hypothesis_id)`, a second `acquire` for the same id (under any
environment, i.e. regardless of any adapter outcomes, which it never
consults) returns the identical path and leaves the pool state and the
filesystem exactly unchanged, in particular the total snapshot count. -/
theorem acquire_idempotent (env₁ env₂ : AcquireEnv) (p : WorktreePool)
    (fs : PoolFS) (hid path : String) (p' : WorktreePool) (fs' : PoolFS)
    (h : WorktreePool.acquire env₁ p fs hid = (Except.ok path, p', fs')) :
    WorktreePool.acquire env₂ p' fs' hid = (Except.ok path, p', fs') := by
  obtain ⟨name, h1, h2⟩ := acquire_ok_state env₁ p fs hid path p' fs' h
  exact acquire_already_allocated env₂ p' fs' hid name path h1 h2

/-- Witness for C2: a concrete first acquire that pops the one available
worktree; the second acquire returns the same path and the same state. -/
theorem acquire_idempotent_witness :
    WorktreePool.acquire ⟨"zz", false, false, false, false⟩
      { available := []
        allocated := [("h1", "pool-wt-000")]
        worktreePaths := [("pool-wt-000", "pool/pool-wt-000")]
        totalCreated := 1
        maxSize := 2
        poolDir := "pool"
        baseRepo := "repo" }
      ⟨["pool-wt-000"], none⟩ "h1"
    = (Except.ok "pool/pool-wt-000",
       { available := []
         allocated := [("h1", "pool-wt-000")]
         worktreePaths := [("pool-wt-000", "pool/pool-wt-000")]
         totalCreated := 1
         maxSize := 2
         poolDir := "pool"
         baseRepo := "repo" },
       ⟨["pool-wt-000"], none⟩) :=
  acquire_idempotent ⟨"pool-wt-000", true, true, true, true⟩
    ⟨"zz", false, false, false, false⟩
    { available := ["pool-wt-000"]
      allocated := []
      worktreePaths := [("pool-wt-000", "pool/pool-wt-000")]
      totalCreated := 1
      maxSize := 2
      poolDir := "pool"
      baseRepo := "repo" }
    ⟨["pool-wt-000"], none⟩ "h1" "pool/pool-wt-000" _ _ (by decide)

/-- Counterexample to claim C3: a concrete acquire in which the reset of
the selected snapshot fails (`resetOk = false`) and the recovery's git
removal also fails (`removeGitOk = false`), leaving the directory in
place.  The recovery's `_create_worktree` then silently reuses the
existing directory — the adapter create is configured to fail
(`recreateOk = false`), so no fresh worktree could have been created —
yet `acquire` returns `ok` with the old path and the directory set is
unchanged: the returned snapshot was neither successfully reset nor
freshly recreated, and no failure propagated. -/
theorem acquire_reset_recovery_cex :
    (acquire ⟨"pool-wt-000", true, false, false, false⟩
        { available := ["pool-wt-000"]
          allocated := []
          worktreePaths := [("pool-wt-000", "pool/pool-wt-000")]
          totalCreated := 1
          maxSize := 2
          poolDir := "pool"
          baseRepo := "repo" }
        ⟨["pool-wt-000"], none⟩ "h1").1 = Except.ok "pool/pool-wt-000" ∧
    ((acquire ⟨"pool-wt-000", true, false, false, false⟩
        { available := ["pool-wt-000"]
          allocated := []
          worktreePaths := [("pool-wt-000", "pool/pool-wt-000")]
          totalCreated := 1
          maxSize := 2
          poolDir := "pool"
          baseRepo := "repo" }
        ⟨["pool-wt-000"], none⟩ "h1").2.2).dirs = ["pool-wt-000"] := by
  decide

/-- Claim C3 as amended: when the reset of the selected snapshot fails,
acquire removes it and invokes create once; when the git removal actually
removes the directory, either the adapter create succeeds — the snapshot
is freshly recreated (its directory reappears) and its path returned — or
the create failure propagates to the caller as a raised
GitOperationError.  (Only when the git removal itself fails does the
counterexample's silent reuse of the un-reset directory occur.) -/
theorem acquire_reset_recovery_amended (env : AcquireEnv) (p : WorktreePool)
    (fs : PoolFS) (hid path₀ : String)
    (hna : dictFind p.allocated hid = none)
    (hpick : env.pick ∈ p.available)
    (htr : dictFind p.worktreePaths env.pick = some path₀)
    (hreset : env.resetOk = false)
    (hrm : env.removeGitOk = true)
    (hdir : env.pick ∈ fs.dirs)
    (hnd : fs.dirs.Nodup) :
    (env.recreateOk = true →
      (acquire env p fs hid).1 = Except.ok (p.poolDir ++ "/" ++ env.pick) ∧
      env.pick ∈ ((acquire env p fs hid).2.2).dirs) ∧
    (env.recreateOk = false →
      (acquire env p fs hid).1 = Except.error PoolErr.gitError) := by
  obtain ⟨pk, cOk, rOk, rmOk, rcOk⟩ := env
  simp only at hna hpick htr hreset hrm hdir
  subst hreset
  subst hrm
  have hne : pk ∉ fs.dirs.erase pk := hnd.not_mem_erase
  constructor
  · intro hrc
    subst hrc
    simp [acquire, hna, setPop_of_mem _ _ hpick, acquireFinish,
      WorktreePool.remove_worktree, WorktreePool.create_worktree, htr, hdir, hne,
      setAdd]
  · intro hrc
    subst hrc
    simp [acquire, hna, setPop_of_mem _ _ hpick, acquireFinish,
      WorktreePool.remove_worktree, WorktreePool.create_worktree, htr, hdir, hne]

/-- Witness for C3 (amended): with the removal succeeding, a failing
recreate propagates the error, and a succeeding recreate returns the
fresh snapshot's path. -/
theorem acquire_reset_recovery_amended_witness :
    (acquire ⟨"pool-wt-000", true, false, true, false⟩
        { available := ["pool-wt-000"]
          allocated := []
          worktreePaths := [("pool-wt-000", "pool/pool-wt-000")]
          totalCreated := 1
          maxSize := 2
          poolDir := "pool"
          baseRepo := "repo" }
        ⟨["pool-wt-000"], none⟩ "h1").1 = Except.error PoolErr.gitError ∧
    (acquire ⟨"pool-wt-000", true, false, true, true⟩
        { available := ["pool-wt-000"]
          allocated := []
          worktreePaths := [("pool-wt-000", "pool/pool-wt-000")]
          totalCreated := 1
          maxSize := 2
          poolDir := "pool"
          baseRepo := "repo" }
        ⟨["pool-wt-000"], none⟩ "h1").1 = Except.ok "pool/pool-wt-000" :=
  ⟨(acquire_reset_recovery_amended ⟨"pool-wt-000", true, false, true, false⟩
      { available := ["pool-wt-000"]
        allocated := []
        worktreePaths := [("pool-wt-000", "pool/pool-wt-000")]
        totalCreated := 1
        maxSize := 2
        poolDir := "pool"
        baseRepo := "repo" }
      ⟨["pool-wt-000"], none⟩ "h1" "pool/pool-wt-000" rfl (by decide) rfl rfl rfl
      (by decide) (by decide)).2 rfl,
   ((acquire_reset_recovery_amended ⟨"pool-wt-000", true, false, true, true⟩
      { available := ["pool-wt-000"]
        allocated := []
        worktreePaths := [("pool-wt-000", "pool/pool-wt-000")]
        totalCreated := 1
        maxSize := 2
        poolDir := "pool"
        baseRepo := "repo" }
      ⟨["pool-wt-000"], none⟩ "h1" "pool/pool-wt-000" rfl (by decide) rfl rfl rfl
      (by decide) (by decide)).1 rfl).1⟩

/-- Claim C4: round-trip persistence — for a pool state whose tracked
snapshot directories (the available names and the leased names) all exist
on the filesystem, persisting the state and constructing a fresh
WorktreePool with the same constructor arguments on the same directory
(which runs `load_state`) yields a pool with identical `get_stats`.  The
`m ≤ p.maxSize` hypothesis says the original pool's `max_size` is at
least the constructor argument, which holds for every pool constructed
with `m` because `load_state` only ever enlarges it; `Nodup` holds for
every state because `_available` is a Python set. -/
theorem persistence_round_trip (p : WorktreePool) (fs : PoolFS) (m : Int)
    (hm : m ≤ p.maxSize)
    (hnd : p.available.Nodup)
    (havail : ∀ n ∈ p.available, n ∈ fs.dirs)
    (_hleased : ∀ n ∈ leasedNames p, n ∈ fs.dirs) :
    get_stats (init p.baseRepo p.poolDir m true (persist_state true p fs).2)
      = get_stats p := by
  have h1 : p.available.dedup = p.available := List.dedup_eq_self.mpr hnd
  have h2 : p.available.filter (fun n => decide (n ∈ fs.dirs)) = p.available := by
    rw [List.filter_eq_self]
    intro a ha
    exact decide_eq_true (havail a ha)
  have h3 : max m p.maxSize = p.maxSize := max_eq_right hm
  simp [init, load_state, persist_state, get_stats, h1, h2, h3]

/-- Witness for C4: a concrete pool with one available and one leased
worktree, both directories present, round-trips to equal stats. -/
theorem persistence_round_trip_witness :
    get_stats
      (init "repo" "pool" 5 true
        (persist_state true
          { available := ["pool-wt-000"]
            allocated := [("h1", "pool-wt-001")]
            worktreePaths :=
              [("pool-wt-000", "pool/pool-wt-000"), ("pool-wt-001", "pool/pool-wt-001")]
            totalCreated := 2
            maxSize := 5
            poolDir := "pool"
            baseRepo := "repo" }
          ⟨["pool-wt-000", "pool-wt-001"], none⟩).2)
      = get_stats
        { available := ["pool-wt-000"]
          allocated := [("h1", "pool-wt-001")]
          worktreePaths :=
            [("pool-wt-000", "pool/pool-wt-000"), ("pool-wt-001", "pool/pool-wt-001")]
          totalCreated := 2
          maxSize := 5
          poolDir := "pool"
          baseRepo := "repo" } :=
  persistence_round_trip
    { available := ["pool-wt-000"]
      allocated := [("h1", "pool-wt-001")]
      worktreePaths :=
        [("pool-wt-000", "pool/pool-wt-000"), ("pool-wt-001", "pool/pool-wt-001")]
      totalCreated := 2
      maxSize := 5
      poolDir := "pool"
      baseRepo := "repo" }
    ⟨["pool-wt-000", "pool-wt-001"], none⟩ 5 (by decide) (by decide) (by decide)
    (by decide)

end ParallelOrchestrator
